import Mathlib

/-!
Verification of the Learning Progress & Assessment Engine of a
vocabulary-learning application (a Vue/Pinia app persisting to a Dexie
document store).

The Lean definitions below are a shallow embedding of the engine's
TypeScript source:

* `Vocabulary`, `Module`, `UserProgress`, `Quiz` mirror the interfaces of
  `services/database.ts`;
* `updateModuleProgress` and `incrementStreakDays` mirror the helpers of
  `services/database.ts` (the Dexie queries become pure list operations on
  the vocabulary snapshot, and writes become returned values);
* `getNextWordsToReview` mirrors the getter of the vocabulary store
  (JavaScript `Array.prototype.sort` with the source's comparator is
  modelled as a stable merge sort under the total preorder
  `compareReview a b <= 0`);
* `generateQuizForModule`, `completeQuiz` mirror the quiz store; the
  `array.sort(() => 0.5 - Math.random())` shuffles are modelled as
  caller-supplied permutation-producing functions, and an out-of-range
  `vocabulary[idx]` access (JavaScript `undefined`, making the subsequent
  property access throw a `TypeError`) is modelled by `Option`, aborting
  generation with `GenError.typeError`;
* `selectAnswer` mirrors the quiz session state machine of `views/Quiz.vue`.

Numeric semantics: JavaScript `Math.round` on a non-negative quotient is
modelled exactly over natural numbers as `jsRound100` (round half up);
`Date.getTime()` values are modelled as integers, and calendar days as
`(year, month, day)` triples, with "the calendar day before today"
(computed in the source via `setDate(getDate() - 1)`) supplied as the
`yesterday` argument.
-/

namespace Portugais

/-- The `Vocabulary` interface of `services/database.ts`.  `lastReviewed`
is the epoch-milliseconds value `new Date(lastReviewed).getTime()` used by
the review-queue comparator. -/
structure Vocabulary where
  id : Option Nat
  portuguese : String
  french : String
  audioUrl : Option String
  examples : Option (List String)
  learned : Bool
  lastReviewed : Option Int
  reviewCount : Nat
  moduleId : Nat
  difficulty : Option Nat
deriving DecidableEq, Repr

/-- The `Module` interface of `services/database.ts`. -/
structure Module where
  id : Option Nat
  title : String
  description : String
  level : String
  theme : String
  order : Int
  completed : Bool
  progress : Nat
  wordCount : Nat
deriving DecidableEq, Repr

/-- A calendar date reduced to the components the streak code compares:
`getFullYear()`, `getMonth()`, `getDate()`. -/
structure StudyDate where
  year : Int
  month : Int
  day : Int
deriving DecidableEq, Repr

/-- The `UserProgress` interface of `services/database.ts`. -/
structure UserProgress where
  id : Option Nat
  totalLearned : Nat
  totalReviewed : Nat
  lastStudyDate : Option StudyDate
  totalStudyTime : Nat
  streakDays : Nat
  currentModule : Option Nat
deriving DecidableEq, Repr

/-- The `Quiz` interface of `services/database.ts` (one stored quiz
question). -/
structure Quiz where
  id : Option Nat
  moduleId : Nat
  type : String
  question : String
  options : Option (List String)
  answer : String
  completed : Bool
deriving DecidableEq, Repr

/-- Model of `Math.round((num / den) * 100)` for natural `num` and positive natural
`den`, computed exactly: `round(100 * num / den) = floor(100 * num / den + 1 / 2)`
(JavaScript `Math.round` rounds halves up). -/
def jsRound100 (num den : Nat) : Nat :=
  (200 * num + den) / (2 * den)

/-- Model of `updateModuleProgress` in `services/database.ts`.  The two Dexie
`count()` queries become filters over the vocabulary snapshot; the
`db.modules.update` write becomes the returned `(progress, completed)`
pair. -/
def updateModuleProgress (moduleId : Nat) (vocab : List Vocabulary) : Nat × Bool :=
  let totalWords := (vocab.filter (fun v => v.moduleId == moduleId)).length
  let learnedWords := (vocab.filter (fun v => v.moduleId == moduleId && v.learned)).length
  let progress := if totalWords > 0 then jsRound100 learnedWords totalWords else 0
  let completed := progress == 100
  (progress, completed)

/-- The "is last study yesterday" test of `incrementStreakDays`: compares
`getDate()`, `getMonth()` and `getFullYear()` of the two dates. -/
def sameCalendarDay (a b : StudyDate) : Bool :=
  a.day == b.day && a.month == b.month && a.year == b.year

/-- Model of `incrementStreakDays` in `services/database.ts`, acting on the
singleton user-progress record.  `today` is the current date and
`yesterday` the calendar day before it (the source computes it via
`setDate(getDate() - 1)`); the `db.userProgress.update` write becomes the
returned record. -/
def incrementStreakDays (progress : UserProgress) (today yesterday : StudyDate) :
    UserProgress :=
  match progress.lastStudyDate with
  | some lastStudyDate =>
    if sameCalendarDay lastStudyDate yesterday then
      { progress with streakDays := progress.streakDays + 1, lastStudyDate := some today }
    else
      { progress with lastStudyDate := some today }
  | none => { progress with lastStudyDate := some today }

/-- The reactive state of the quiz session in `views/Quiz.vue`
(`selectedAnswer`, `isAnswerCorrect`, `hasAnswered` refs and the
`results` record's mutable counters). -/
structure QuizSession where
  selectedAnswer : Option String
  isAnswerCorrect : Bool
  hasAnswered : Bool
  score : Nat
  correctAnswers : Nat
  incorrectAnswers : Nat
deriving DecidableEq, Repr

/-- Model of `selectAnswer` in `views/Quiz.vue`: guarded by `hasAnswered`, compares
the submitted answer to the current question's `correctAnswer` with
JavaScript `===` (exact, case-sensitive), and updates the counters. -/
def selectAnswer (correctAnswer : String) (s : QuizSession) (answer : String) :
    QuizSession :=
  if s.hasAnswered then s
  else
    let s1 := { s with selectedAnswer := some answer, hasAnswered := true }
    if correctAnswer == answer then
      { s1 with isAnswerCorrect := true,
                correctAnswers := s1.correctAnswers + 1,
                score := s1.score + 10 }
    else
      { s1 with isAnswerCorrect := false,
                incorrectAnswers := s1.incorrectAnswers + 1 }

/-- The comparator passed to `Array.prototype.sort` in the vocabulary
store's `getNextWordsToReview` getter: items without `lastReviewed`
compare as smaller than everything, and timestamped items compare by
`getTime()` difference. -/
def compareReview (a b : Vocabulary) : Int :=
  match a.lastReviewed with
  | none => -1
  | some ta =>
    match b.lastReviewed with
    | none => 1
    | some tb => ta - tb

/-- Model of `getNextWordsToReview` in the vocabulary store: filter to learned
items, sort by the comparator above (JavaScript's stable sort modelled as
`mergeSort` under `compareReview a b <= 0`), take the first 10. -/
def getNextWordsToReview (vocabularyItems : List Vocabulary) : List Vocabulary :=
  (((vocabularyItems.filter (fun item => item.learned)).mergeSort
    (fun a b => compareReview a b ≤ 0)).take 10)

/-- One multiple-choice question of `generateQuizForModule` in the quiz
store, for a given correct item: up to 3 distractors are drawn by
shuffling the pool items whose `id` differs from the correct item's and
taking the first 3 `french` texts, then the 4 options are shuffled
again.  `shuffleItems` and `shuffleOptions` stand for the source's
`sort(() => 0.5 - Math.random())` calls. -/
def mcQuestion (moduleId : Nat) (vocabulary : List Vocabulary)
    (shuffleItems : List Vocabulary → List Vocabulary)
    (shuffleOptions : List String → List String)
    (correctItem : Vocabulary) : Quiz :=
  let incorrectOptions :=
    ((shuffleItems (vocabulary.filter (fun item => item.id != correctItem.id))).take 3).map
      (fun item => item.french)
  let options := shuffleOptions (incorrectOptions ++ [correctItem.french])
  { id := none, moduleId := moduleId, type := "multiple-choice",
    question := "Traduisez: " ++ correctItem.portuguese,
    options := some options, answer := correctItem.french, completed := false }

/-- The multiple-choice loop of `generateQuizForModule`: one question per
leading pool item, for `i < min(vocabulary.length, 5)`; each iteration
draws fresh randomness, hence the shuffle families indexed by `i`. -/
def mcQuestions (moduleId : Nat) (vocabulary : List Vocabulary)
    (shuffleItems : Nat → List Vocabulary → List Vocabulary)
    (shuffleOptions : Nat → List String → List String) : List Quiz :=
  (vocabulary.take 5).enum.map (fun p =>
    mcQuestion moduleId vocabulary (shuffleItems p.1) (shuffleOptions p.1) p.2)

/-- The index expression `i + 5 > vocabulary.length ? i : i + 5` of the
fill-in-blank loop. -/
def fibIndex (len i : Nat) : Nat :=
  if i + 5 > len then i else i + 5

/-- The fill-in-blank question built from one vocabulary item. -/
def fibQuestion (moduleId : Nat) (item : Vocabulary) : Quiz :=
  { id := none, moduleId := moduleId, type := "fill-in-blank",
    question := "Complétez: ___ (" ++ item.french ++ ")",
    options := none, answer := item.portuguese, completed := false }

/-- The fill-in-blank loop of `generateQuizForModule`:
`min(vocabulary.length, 3)` iterations reading `vocabulary[fibIndex]`.
An index outside the pool yields JavaScript `undefined`, and the
subsequent `item.french` access throws — modelled by `none`. -/
def fibQuestions (moduleId : Nat) (vocabulary : List Vocabulary) : Option (List Quiz) :=
  (List.range (min vocabulary.length 3)).mapM (fun i =>
    (vocabulary[fibIndex vocabulary.length i]?).map (fun item => fibQuestion moduleId item))

/-- The index expression `i + 8 > vocabulary.length ? i : i + 8` of the
audio loop. -/
def audioIndex (len i : Nat) : Nat :=
  if i + 8 > len then i else i + 8

/-- The audio-recognition question built from one vocabulary item. -/
def audioQuestion (moduleId : Nat) (item : Vocabulary) : Quiz :=
  { id := none, moduleId := moduleId, type := "audio",
    question := "Écoutez et écrivez: (audio: \"" ++ item.portuguese ++ "\")",
    options := none, answer := item.portuguese, completed := false }

/-- The audio loop of `generateQuizForModule`: `min(vocabulary.length, 2)`
iterations reading `vocabulary[audioIndex]`, with the same out-of-range
behaviour as the fill-in-blank loop. -/
def audioQuestions (moduleId : Nat) (vocabulary : List Vocabulary) : Option (List Quiz) :=
  (List.range (min vocabulary.length 2)).mapM (fun i =>
    (vocabulary[audioIndex vocabulary.length i]?).map (fun item => audioQuestion moduleId item))

/-- How a `generateQuizForModule` call can fail: the explicit
insufficient-vocabulary guard (`this.error` is set and `false` returned),
or the `TypeError` thrown when an out-of-range window index makes
`vocabulary[idx]` `undefined`. -/
inductive GenError where
  | insufficientData
  | typeError
deriving DecidableEq, Repr

/-- Model of `generateQuizForModule` in the quiz store.  `vocabulary` is the
module's fetched pool (`currentModuleVocabulary`), `stored` the quizzes
table.  The function first deletes the module's stored questions, then
checks the pool size, then builds the three question groups, and finally
bulk-inserts them.  The returned pair is (new quizzes table, outcome). -/
def generateQuizForModule (moduleId : Nat) (vocabulary : List Vocabulary)
    (shuffleItems : Nat → List Vocabulary → List Vocabulary)
    (shuffleOptions : Nat → List String → List String)
    (stored : List Quiz) : List Quiz × Except GenError (List Quiz) :=
  let cleared := stored.filter (fun q => q.moduleId != moduleId)
  if vocabulary.length < 4 then
    (cleared, Except.error GenError.insufficientData)
  else
    let mc := mcQuestions moduleId vocabulary shuffleItems shuffleOptions
    match fibQuestions moduleId vocabulary with
    | none => (cleared, Except.error GenError.typeError)
    | some fib =>
      match audioQuestions moduleId vocabulary with
      | none => (cleared, Except.error GenError.typeError)
      | some audio =>
        let newQuizzes := mc ++ fib ++ audio
        (cleared ++ newQuizzes, Except.ok newQuizzes)

/-- Model of `updateModule` in the module store, restricted to its effect on the
in-memory module list: overwrite the fields of the first module whose
`id` matches. -/
def updateModule (modules : List Module) (id : Nat) (data : Module → Module) :
    List Module :=
  match modules.findIdx? (fun m => m.id == some id) with
  | some index => List.modify data index modules
  | none => modules

/-- Model of `completeQuiz` in the quiz store: look the module up by id and, when
it exists and the session's raw score is at least 70, mark it
`completed = true`, `progress = 100`; otherwise leave the module list
unchanged. -/
def completeQuiz (modules : List Module) (moduleId : Nat) (score : Nat) :
    List Module :=
  if ((modules.find? (fun m => m.id == some moduleId)).isSome ∧ 70 ≤ score) then
    updateModule modules moduleId (fun m => { m with completed := true, progress := 100 })
  else
    modules

/-- The session score accumulated by `views/Quiz.vue`: `score += 10` per
correct answer. -/
def sessionScore (correctAnswers : Nat) : Nat :=
  10 * correctAnswers

/-- The percentage displayed by `views/Quiz.vue` on completion:
`Math.round((correctAnswers / total) * 100)`. -/
def sessionPercentage (correctAnswers total : Nat) : Nat :=
  jsRound100 correctAnswers total

/-! ### Concrete sample data, used by witnesses and counterexamples -/

/-- A vocabulary item with the given id, texts and review state. -/
def mkItem (i : Nat) (pt fr : String) (learned : Bool) (lr : Option Int) : Vocabulary :=
  { id := some i, portuguese := pt, french := fr, audioUrl := none, examples := none,
    learned := learned, lastReviewed := lr, reviewCount := 0, moduleId := 1,
    difficulty := none }

/-- The spec's end-to-end sample pool of 4 items for module 1. -/
def pool4 : List Vocabulary :=
  [mkItem 1 "casa" "maison" false none, mkItem 2 "carro" "voiture" false none,
   mkItem 3 "livro" "livre" false none, mkItem 4 "agua" "eau" false none]

/-- A pool of 3 items (below the quiz-generation minimum). -/
def pool3 : List Vocabulary :=
  pool4.take 3

/-- A pool of 5 items (the smallest size on which the fill-in-blank
window guard misfires). -/
def pool5 : List Vocabulary :=
  pool4 ++ [mkItem 5 "pao" "pain" false none]

/-- A 4-item pool in which two distinct items share the French text
"x". -/
def poolDupFrench : List Vocabulary :=
  [mkItem 1 "a" "x" false none, mkItem 2 "b" "x" false none,
   mkItem 3 "c" "y" false none, mkItem 4 "d" "z" false none]

/-- A 4-item pool in which two distinct items share id 1. -/
def poolDupId : List Vocabulary :=
  [mkItem 1 "a" "w" false none, mkItem 1 "b" "x" false none,
   mkItem 2 "c" "y" false none, mkItem 3 "d" "z" false none]

/-- The degenerate shuffle that keeps the list order (one admissible
outcome of `sort(() => 0.5 - Math.random())`). -/
def idShuffleItems : Nat → List Vocabulary → List Vocabulary := fun _ l => l

/-- The degenerate option shuffle that keeps the list order. -/
def idShuffleOptions : Nat → List String → List String := fun _ l => l

/-- A stored quiz question attached to module 1. -/
def storedQuizModule1 : Quiz :=
  { id := some 7, moduleId := 1, type := "multiple-choice", question := "old q",
    options := some ["a", "b", "c", "d"], answer := "a", completed := false }

/-- A calendar date used as `today` in the streak witnesses. -/
def sampleToday : StudyDate := { year := 2026, month := 9, day := 11 }

/-- The calendar day before `sampleToday`. -/
def sampleYesterday : StudyDate := { year := 2026, month := 9, day := 10 }

/-- A user-progress record whose last study day was `sampleYesterday`. -/
def sampleProgress : UserProgress :=
  { id := some 1, totalLearned := 4, totalReviewed := 2,
    lastStudyDate := some sampleYesterday, totalStudyTime := 30, streakDays := 2,
    currentModule := some 1 }

/-- A fresh quiz session: nothing selected, nothing answered, all
counters zero. -/
def sampleSession : QuizSession :=
  { selectedAnswer := none, isAnswerCorrect := false, hasAnswered := false,
    score := 0, correctAnswers := 0, incorrectAnswers := 0 }

/-- A module record with id 1, not yet completed, progress 0. -/
def sampleModule : Module :=
  { id := some 1, title := "Les bases", description := "d", level := "A1",
    theme := "basics", order := 1, completed := false, progress := 0, wordCount := 4 }

/-! ### C1 — module-progress recomputation -/

/-- C1: for every module identifier and vocabulary snapshot, the
recomputed progress equals `round(100 * learned / total)` with `total`
the number of items of the module and `learned` the number of its learned
items, degrading to 0 when `total = 0`; and the recomputed `completed`
flag holds exactly when progress is 100.  (`updateModuleProgress` is a
total Lean function, so the recomputation never fails.) -/
theorem updateModuleProgress_spec (moduleId : Nat) (vocab : List Vocabulary) :
    ((updateModuleProgress moduleId vocab).1
      = (if vocab.countP (fun v => v.moduleId == moduleId) = 0 then 0
         else jsRound100 (vocab.countP (fun v => v.moduleId == moduleId && v.learned))
                (vocab.countP (fun v => v.moduleId == moduleId))))
    ∧ ((updateModuleProgress moduleId vocab).2 = true
        ↔ (updateModuleProgress moduleId vocab).1 = 100) := by
  unfold updateModuleProgress
  simp only [List.countP_eq_length_filter]
  refine ⟨?_, ?_⟩
  · by_cases h : (vocab.filter (fun v => v.moduleId == moduleId)).length = 0
    · simp [h]
    · simp [h, Nat.pos_of_ne_zero h]
  · simp [beq_iff_eq]

/-! ### C5 — streak advancement -/

/-- C5: the streak update always stamps `lastStudyDate` with today; it
leaves `streakDays` unchanged when `lastStudyDate` was unset; it
increments `streakDays` by exactly 1 when the stored date's year, month
and day all match the calendar day before today; it leaves `streakDays`
unchanged in every other case (same day, or a gap of two or more days);
and the streak is never reset — the new value is always the old one or
the old one plus 1. -/
theorem incrementStreakDays_spec (p : UserProgress) (today yesterday : StudyDate) :
    (incrementStreakDays p today yesterday).lastStudyDate = some today
    ∧ (p.lastStudyDate = none →
        (incrementStreakDays p today yesterday).streakDays = p.streakDays)
    ∧ (∀ last, p.lastStudyDate = some last → sameCalendarDay last yesterday = true →
        (incrementStreakDays p today yesterday).streakDays = p.streakDays + 1)
    ∧ (∀ last, p.lastStudyDate = some last → sameCalendarDay last yesterday = false →
        (incrementStreakDays p today yesterday).streakDays = p.streakDays)
    ∧ ((incrementStreakDays p today yesterday).streakDays = p.streakDays
        ∨ (incrementStreakDays p today yesterday).streakDays = p.streakDays + 1) := by
  unfold incrementStreakDays
  match hp : p.lastStudyDate with
  | none => simp
  | some last =>
    by_cases hy : sameCalendarDay last yesterday
    · simp [hy]
    · simp [hy]

/-- Witness for C5 at concrete data: the record last studied yesterday
has its streak advanced from 2 to 3 and its date stamped with today. -/
theorem incrementStreakDays_spec_witness :
    (incrementStreakDays sampleProgress sampleToday sampleYesterday).streakDays = 3
    ∧ (incrementStreakDays sampleProgress sampleToday sampleYesterday).lastStudyDate
        = some sampleToday := by
  have h := incrementStreakDays_spec sampleProgress sampleToday sampleYesterday
  exact ⟨h.2.2.1 sampleYesterday rfl (by decide), h.1⟩

/-! ### C8 — quiz-session answer handling -/

/-- C8: an answer is accepted at most once per question — with
`hasAnswered` set the call is ignored, and any second call right after a
first one leaves the session (counters and score included) unchanged;
correctness is exact, case-sensitive string equality with the question's
`correctAnswer`; a correct answer increments `correctAnswers` and adds 10
to the score (leaving `incorrectAnswers` unchanged), an incorrect one
increments `incorrectAnswers` (leaving `correctAnswers` and the score
unchanged). -/
theorem selectAnswer_spec (correctAnswer : String) (s : QuizSession)
    (answer answer2 : String) :
    (s.hasAnswered = true → selectAnswer correctAnswer s answer = s)
    ∧ selectAnswer correctAnswer (selectAnswer correctAnswer s answer) answer2
        = selectAnswer correctAnswer s answer
    ∧ (s.hasAnswered = false → answer = correctAnswer →
        (selectAnswer correctAnswer s answer).correctAnswers = s.correctAnswers + 1
        ∧ (selectAnswer correctAnswer s answer).score = s.score + 10
        ∧ (selectAnswer correctAnswer s answer).incorrectAnswers = s.incorrectAnswers)
    ∧ (s.hasAnswered = false → answer ≠ correctAnswer →
        (selectAnswer correctAnswer s answer).incorrectAnswers = s.incorrectAnswers + 1
        ∧ (selectAnswer correctAnswer s answer).correctAnswers = s.correctAnswers
        ∧ (selectAnswer correctAnswer s answer).score = s.score) := by
  have hAfter : (selectAnswer correctAnswer s answer).hasAnswered = true := by
    unfold selectAnswer
    by_cases h : s.hasAnswered
    · simp [h]
    · by_cases hc : correctAnswer == answer <;> simp [h, hc]
  refine ⟨?_, ?_, ?_, ?_⟩
  · intro h
    simp [selectAnswer, h]
  · conv_lhs => rw [selectAnswer]
    rw [if_pos hAfter]
  · intro h he
    subst he
    simp [selectAnswer, h]
  · intro h he
    have hne : (correctAnswer == answer) = false := by
      simp [beq_iff_eq]
      exact fun hx => he hx.symm
    simp [selectAnswer, h, hne]

/-- Witness for C8 at concrete data: answering the fresh session with the
exact correct string yields one correct answer and 10 points, and a
second call right after changes nothing. -/
theorem selectAnswer_spec_witness :
    (selectAnswer "maison" sampleSession "maison").correctAnswers = 1
    ∧ (selectAnswer "maison" sampleSession "maison").score = 10
    ∧ selectAnswer "maison" (selectAnswer "maison" sampleSession "maison") "voiture"
        = selectAnswer "maison" sampleSession "maison" := by
  have h := selectAnswer_spec "maison" sampleSession "maison" "voiture"
  exact ⟨(h.2.2.1 rfl rfl).1, (h.2.2.1 rfl rfl).2.1, h.2.1⟩

/-! ### C6 — the dashboard review queue -/

/-- The comparator is non-positive exactly when the left item has no
review timestamp, or both have one and the left timestamp is not
later. -/
theorem compareReview_nonpos (a b : Vocabulary) :
    compareReview a b ≤ 0 ↔
      (a.lastReviewed = none
        ∨ ∃ ta tb, a.lastReviewed = some ta ∧ b.lastReviewed = some tb ∧ ta ≤ tb) := by
  unfold compareReview
  rcases a.lastReviewed with _ | ta <;> rcases b.lastReviewed with _ | tb <;> simp

/-- The comparator's non-strict order is total. -/
theorem compareReview_total (a b : Vocabulary) :
    compareReview a b ≤ 0 ∨ compareReview b a ≤ 0 := by
  unfold compareReview
  rcases a.lastReviewed with _ | ta <;> rcases b.lastReviewed with _ | tb <;> simp
  omega

/-- The comparator's non-strict order is transitive. -/
theorem compareReview_trans {a b c : Vocabulary}
    (hab : compareReview a b ≤ 0) (hbc : compareReview b c ≤ 0) :
    compareReview a c ≤ 0 := by
  rw [compareReview_nonpos] at hab hbc ⊢
  rcases hab with ha | ⟨ta, tb, ha, hb, h1⟩
  · exact Or.inl ha
  · rcases hbc with hb' | ⟨tb', tc, hb', hc, h2⟩
    · rw [hb'] at hb
      cases hb
    · refine Or.inr ⟨ta, tc, ha, hc, ?_⟩
      rw [hb'] at hb
      injection hb with e
      omega

/-- C6: the dashboard review queue contains only learned items of the
snapshot, holds at most 10 items, and is ordered so that items with no
`lastReviewed` timestamp always precede timestamped ones while
timestamped items appear in non-decreasing timestamp order. -/
theorem getNextWordsToReview_spec (items : List Vocabulary) :
    (∀ v ∈ getNextWordsToReview items, v.learned = true ∧ v ∈ items)
    ∧ (getNextWordsToReview items).length ≤ 10
    ∧ List.Pairwise (fun a b =>
        (b.lastReviewed = none → a.lastReviewed = none)
        ∧ ∀ ta tb, a.lastReviewed = some ta → b.lastReviewed = some tb → ta ≤ tb)
      (getNextWordsToReview items) := by
  refine ⟨?_, ?_, ?_⟩
  · intro v hv
    have h1 : v ∈ (items.filter (fun item => item.learned)).mergeSort
        (fun a b => compareReview a b ≤ 0) := List.mem_of_mem_take hv
    have h2 : v ∈ items.filter (fun item => item.learned) :=
      (List.mergeSort_perm _ _).mem_iff.mp h1
    have h3 := List.mem_filter.mp h2
    exact ⟨h3.2, h3.1⟩
  · unfold getNextWordsToReview
    rw [List.length_take]
    exact inf_le_left
  · have hsorted := @List.sorted_mergeSort Vocabulary
      (fun a b : Vocabulary => decide (compareReview a b ≤ 0))
      (fun a b c hab hbc => by
        simp only [decide_eq_true_eq] at hab hbc ⊢
        exact compareReview_trans hab hbc)
      (fun a b => by
        simp only [Bool.or_eq_true, decide_eq_true_eq]
        exact compareReview_total a b)
      (items.filter (fun item => item.learned))
    have hpw := hsorted.sublist (List.take_sublist 10 _)
    refine hpw.imp ?_
    intro a b hab
    simp only [decide_eq_true_eq, compareReview_nonpos] at hab
    constructor
    · intro hb
      rcases hab with ha | ⟨ta, tb, ha, hb', h1⟩
      · exact ha
      · rw [hb] at hb'
        cases hb'
    · intro ta tb ha hb
      rcases hab with ha' | ⟨ta', tb', ha', hb', h1⟩
      · rw [ha] at ha'
        cases ha'
      · rw [ha] at ha'
        rw [hb] at hb'
        injection ha' with e1
        injection hb' with e2
        omega

/-- A snapshot mixing learned and unlearned items, reviewed and never
reviewed. -/
def reviewSamplePool : List Vocabulary :=
  [mkItem 1 "a" "w" true (some 5), mkItem 2 "b" "x" true none,
   mkItem 3 "c" "y" false none, mkItem 4 "d" "z" true (some 2)]

/-- Witness for C6 at concrete data: the queue over the sample snapshot
is within the limit of 10. -/
theorem getNextWordsToReview_spec_witness :
    (getNextWordsToReview reviewSamplePool).length ≤ 10 :=
  (getNextWordsToReview_spec reviewSamplePool).2.1

/-! ### C2 and C10 — the insufficient-pool failure path -/

/-- C2: a quiz-generation call on a pool of fewer than 4 items fails with
the insufficient-data error surfaced to the caller, and emits no quiz
question — every question still stored after the call was already stored
before it. -/
theorem generateQuiz_insufficient (moduleId : Nat) (vocabulary : List Vocabulary)
    (shuffleItems : Nat → List Vocabulary → List Vocabulary)
    (shuffleOptions : Nat → List String → List String)
    (stored : List Quiz) (h : vocabulary.length < 4) :
    (generateQuizForModule moduleId vocabulary shuffleItems shuffleOptions stored).2
        = Except.error GenError.insufficientData
    ∧ ∀ q ∈ (generateQuizForModule moduleId vocabulary shuffleItems shuffleOptions stored).1,
        q ∈ stored := by
  unfold generateQuizForModule
  rw [if_pos h]
  exact ⟨rfl, fun q hq => (List.mem_filter.mp hq).1⟩

/-- Witness for C2 at concrete data: generating for module 1 over the
3-item pool reports the insufficient-data error. -/
theorem generateQuiz_insufficient_witness :
    (generateQuizForModule 1 pool3 idShuffleItems idShuffleOptions [storedQuizModule1]).2
        = Except.error GenError.insufficientData :=
  (generateQuiz_insufficient 1 pool3 idShuffleItems idShuffleOptions [storedQuizModule1]
    (by decide)).1

/-- C10: the failing call has already deleted the module's previously
stored questions — the resulting store is exactly the prior store with
the module's questions removed, so it holds no question for that module. -/
theorem generateQuiz_insufficient_clears (moduleId : Nat) (vocabulary : List Vocabulary)
    (shuffleItems : Nat → List Vocabulary → List Vocabulary)
    (shuffleOptions : Nat → List String → List String)
    (stored : List Quiz) (h : vocabulary.length < 4) :
    (generateQuizForModule moduleId vocabulary shuffleItems shuffleOptions stored).1
        = stored.filter (fun q => q.moduleId != moduleId)
    ∧ ∀ q ∈ (generateQuizForModule moduleId vocabulary shuffleItems shuffleOptions stored).1,
        q.moduleId ≠ moduleId := by
  unfold generateQuizForModule
  rw [if_pos h]
  refine ⟨rfl, fun q hq => ?_⟩
  have := (List.mem_filter.mp hq).2
  simpa using this

/-- Witness for C10 at concrete data: module 1 had a stored question; the
failed generation call over the 3-item pool leaves the store empty. -/
theorem generateQuiz_insufficient_clears_witness :
    (generateQuizForModule 1 pool3 idShuffleItems idShuffleOptions [storedQuizModule1]).1
        = [] :=
  ((generateQuiz_insufficient_clears 1 pool3 idShuffleItems idShuffleOptions
    [storedQuizModule1] (by decide)).1).trans (by decide)

/-! ### C4 — the fill-in-blank/audio window guard misfires -/

/-- C4 (code bug): on a pool of exactly 5 items the fill-in-blank window
guard `i + 5 > length ? i : i + 5` lets the very first iteration resolve
index 5 — equal to the pool length, hence outside the pool — so the
lookup yields no item (JavaScript `undefined`, a thrown `TypeError`) and
generation aborts instead of wrapping to the start. -/
theorem generateQuiz_windowIndex_oob (moduleId : Nat) (vocabulary : List Vocabulary)
    (shuffleItems : Nat → List Vocabulary → List Vocabulary)
    (shuffleOptions : Nat → List String → List String)
    (stored : List Quiz) (h : vocabulary.length = 5) :
    fibIndex vocabulary.length 0 = vocabulary.length
    ∧ vocabulary[fibIndex vocabulary.length 0]? = none
    ∧ (generateQuizForModule moduleId vocabulary shuffleItems shuffleOptions stored).2
        = Except.error GenError.typeError := by
  have hidx : fibIndex vocabulary.length 0 = 5 := by
    rw [h]
    rfl
  have hget : vocabulary[fibIndex vocabulary.length 0]? = none := by
    apply List.getElem?_eq_none
    omega
  have hfib : fibQuestions moduleId vocabulary = none := by
    unfold fibQuestions
    rw [h]
    have hrange : List.range (min 5 3) = [0, 1, 2] := by decide
    rw [hrange, List.mapM_cons]
    have h5 : vocabulary[fibIndex 5 0]? = none := by
      rw [h] at hget
      exact hget
    rw [h5]
    rfl
  refine ⟨hidx.trans h.symm, hget, ?_⟩
  unfold generateQuizForModule
  rw [if_neg (by omega), hfib]

/-- Witness for C4 at concrete data: the 5-item pool makes generation
abort with the out-of-range error. -/
theorem generateQuiz_windowIndex_oob_witness :
    (generateQuizForModule 1 pool5 idShuffleItems idShuffleOptions []).2
        = Except.error GenError.typeError :=
  (generateQuiz_windowIndex_oob 1 pool5 idShuffleItems idShuffleOptions []
    (by decide)).2.2

/-! ### C3 and C9 — multiple-choice question structure -/

/-- In a list of pairwise-distinct items, filtering to those whose id
equals the id of a member `c` yields exactly `[c]`, provided `c` is the
only member with its id. -/
theorem filter_id_eq_singleton :
    ∀ (l : List Vocabulary) (c : Vocabulary), l.Nodup → c ∈ l →
      (∀ x ∈ l, x.id = c.id → x = c) →
      l.filter (fun x => x.id == c.id) = [c] := by
  intro l
  induction l with
  | nil =>
    intro c _ hc _
    cases hc
  | cons a t ih =>
    intro c hnd hc hinj
    rcases List.mem_cons.mp hc with he | hct
    · subst he
      rw [List.filter_cons_of_pos (by simp)]
      have ht : t.filter (fun x => x.id == c.id) = [] := by
        rw [List.filter_eq_nil_iff]
        intro x hx
        simp only [beq_iff_eq]
        intro hxe
        have hxa : x = c := hinj x (List.mem_cons_of_mem c hx) hxe
        subst hxa
        exact (List.nodup_cons.mp hnd).1 hx
      rw [ht]
    · have hac : a ≠ c := by
        intro he
        subst he
        exact (List.nodup_cons.mp hnd).1 hct
      rw [List.filter_cons_of_neg (by
        simp only [beq_iff_eq]
        intro he
        exact hac (hinj a (List.mem_cons_self a t) he))]
      exact ih c (List.nodup_cons.mp hnd).2 hct
        (fun x hx => hinj x (List.mem_cons_of_mem a hx))

/-- In a pool whose ids are pairwise distinct, filtering a member's id
out removes exactly that member: the filtered list is one shorter. -/
theorem length_filter_ne_id (vocabulary : List Vocabulary)
    (hids : (vocabulary.map (fun v => v.id)).Nodup)
    (c : Vocabulary) (hc : c ∈ vocabulary) :
    (vocabulary.filter (fun item => item.id != c.id)).length + 1 = vocabulary.length := by
  have hinj : ∀ x ∈ vocabulary, x.id = c.id → x = c := by
    intro x hx hxe
    exact List.inj_on_of_nodup_map hids hx hc hxe
  have hnd : vocabulary.Nodup := List.Nodup.of_map _ hids
  have hsingle := filter_id_eq_singleton vocabulary c hnd hc hinj
  have hperm := (List.filter_append_perm (fun item => item.id != c.id) vocabulary).length_eq
  rw [List.length_append] at hperm
  have hnot : vocabulary.filter (fun x => !(x.id != c.id))
      = vocabulary.filter (fun x => x.id == c.id) := by
    congr 1
    funext x
    simp [bne]
  rw [hnot, hsingle] at hperm
  simpa using hperm

/-- Structure of one multiple-choice question: over a pool of at least 4
items with pairwise-distinct ids and pairwise-distinct French texts, and
with permutation-producing shuffles, the question for a pool member `c`
has exactly 4 options — a permutation of 3 distractors plus the correct
answer `c.french` — the correct answer occurs exactly once among the
options, the distractors are 3 pairwise-distinct pool items none of which
is `c` or shares its id, and no distractor text repeats or equals the
correct answer. -/
theorem mcQuestion_props (moduleId : Nat) (vocabulary : List Vocabulary)
    (sI : List Vocabulary → List Vocabulary) (sO : List String → List String)
    (hlen : 4 ≤ vocabulary.length)
    (hids : (vocabulary.map (fun v => v.id)).Nodup)
    (hfr : (vocabulary.map (fun v => v.french)).Nodup)
    (hsi : ∀ l, (sI l).Perm l) (hso : ∀ l, (sO l).Perm l)
    (c : Vocabulary) (hc : c ∈ vocabulary) :
    ∃ (opts : List String) (distractors : List Vocabulary),
      (mcQuestion moduleId vocabulary sI sO c).options = some opts
      ∧ (mcQuestion moduleId vocabulary sI sO c).answer = c.french
      ∧ opts.Perm ((distractors.map (fun v => v.french)) ++ [c.french])
      ∧ opts.length = 4
      ∧ opts.count c.french = 1
      ∧ distractors.length = 3
      ∧ distractors.Nodup
      ∧ (distractors.map (fun v => v.french)).Nodup
      ∧ (∀ d ∈ distractors, d ∈ vocabulary ∧ d.id ≠ c.id ∧ d ≠ c)
      ∧ c.french ∉ distractors.map (fun v => v.french) := by
  have hflen := length_filter_ne_id vocabulary hids c hc
  have h3 : 3 ≤ (vocabulary.filter (fun item => item.id != c.id)).length := by omega
  have hslen : (sI (vocabulary.filter (fun item => item.id != c.id))).length
      = (vocabulary.filter (fun item => item.id != c.id)).length :=
    (hsi _).length_eq
  have hdlen : ((sI (vocabulary.filter (fun item => item.id != c.id))).take 3).length = 3 := by
    rw [List.length_take, hslen]
    omega
  have hvnd : vocabulary.Nodup := List.Nodup.of_map _ hfr
  have hfnd : (vocabulary.filter (fun item => item.id != c.id)).Nodup :=
    (List.filter_sublist vocabulary).nodup hvnd
  have hsnd : (sI (vocabulary.filter (fun item => item.id != c.id))).Nodup :=
    ((hsi _).symm).nodup hfnd
  have hdnd : ((sI (vocabulary.filter (fun item => item.id != c.id))).take 3).Nodup :=
    (List.take_sublist 3 _).nodup hsnd
  have hfrf : ((vocabulary.filter (fun item => item.id != c.id)).map
      (fun v => v.french)).Nodup :=
    ((List.filter_sublist vocabulary).map _).nodup hfr
  have hfrs : ((sI (vocabulary.filter (fun item => item.id != c.id))).map
      (fun v => v.french)).Nodup :=
    (((hsi _).map _).symm).nodup hfrf
  have hfrd : (((sI (vocabulary.filter (fun item => item.id != c.id))).take 3).map
      (fun v => v.french)).Nodup :=
    ((List.take_sublist 3 _).map _).nodup hfrs
  have hdmem : ∀ d ∈ (sI (vocabulary.filter (fun item => item.id != c.id))).take 3,
      d ∈ vocabulary ∧ d.id ≠ c.id ∧ d ≠ c := by
    intro d hd
    have h1 : d ∈ sI (vocabulary.filter (fun item => item.id != c.id)) :=
      List.mem_of_mem_take hd
    have h2 : d ∈ vocabulary.filter (fun item => item.id != c.id) :=
      (hsi _).mem_iff.mp h1
    have h3' := List.mem_filter.mp h2
    have hne : d.id ≠ c.id := by simpa using h3'.2
    exact ⟨h3'.1, hne, fun he => hne (by rw [he])⟩
  have hcnot : c.french ∉ ((sI (vocabulary.filter (fun item => item.id != c.id))).take 3).map
      (fun v => v.french) := by
    intro hmem
    obtain ⟨d, hd, hde⟩ := List.mem_map.mp hmem
    have h := hdmem d hd
    exact h.2.2 (List.inj_on_of_nodup_map hfr h.1 hc hde)
  refine ⟨sO ((((sI (vocabulary.filter (fun item => item.id != c.id))).take 3).map
        (fun v => v.french)) ++ [c.french]),
      (sI (vocabulary.filter (fun item => item.id != c.id))).take 3,
      rfl, rfl, hso _, ?_, ?_, hdlen, hdnd, hfrd, hdmem, hcnot⟩
  · rw [(hso _).length_eq, List.length_append, List.length_map, hdlen]
    rfl
  · rw [(hso _).count_eq, List.count_append]
    have h0 : (((sI (vocabulary.filter (fun item => item.id != c.id))).take 3).map
        (fun v => v.french)).count c.french = 0 :=
      List.count_eq_zero.mpr hcnot
    rw [h0, List.count_singleton]
    simp

/-- C3 counterexample: the claim fails as stated on pools that repeat a
French text or an id.  On `poolDupFrench` (two items translated "x") the
first generated question's options contain its correct answer twice; on
`poolDupId` (two items with id 1) the first question has only 3
options. -/
theorem mcQuestions_counterexample :
    (((mcQuestions 1 poolDupFrench idShuffleItems idShuffleOptions).map
        (fun q => (q.options.getD []).count q.answer)).head? = some 2)
    ∧ (((mcQuestions 1 poolDupId idShuffleItems idShuffleOptions).map
        (fun q => (q.options.getD []).length)).head? = some 3) := by
  decide

/-- C3 (amended with the pool-integrity hypotheses the counterexample
forces): over a pool of at least 4 items whose ids are pairwise distinct
and whose target (French) texts are pairwise distinct, and with
permutation-producing shuffles, every generated multiple-choice question
has exactly 4 options, its correct answer (the item's target text) occurs
among the options exactly once, its 3 distractors are pairwise-distinct
pool items other than the correct item (so the correct item is never its
own distractor), and no distractor text repeats within the question. -/
theorem mcQuestions_spec (moduleId : Nat) (vocabulary : List Vocabulary)
    (shuffleItems : Nat → List Vocabulary → List Vocabulary)
    (shuffleOptions : Nat → List String → List String)
    (hlen : 4 ≤ vocabulary.length)
    (hids : (vocabulary.map (fun v => v.id)).Nodup)
    (hfr : (vocabulary.map (fun v => v.french)).Nodup)
    (hsi : ∀ i l, (shuffleItems i l).Perm l)
    (hso : ∀ i l, (shuffleOptions i l).Perm l) :
    ∀ q ∈ mcQuestions moduleId vocabulary shuffleItems shuffleOptions,
      ∃ c ∈ vocabulary, ∃ (opts : List String) (distractors : List Vocabulary),
        q.answer = c.french
        ∧ q.options = some opts
        ∧ opts.Perm ((distractors.map (fun v => v.french)) ++ [c.french])
        ∧ opts.length = 4
        ∧ opts.count c.french = 1
        ∧ distractors.length = 3
        ∧ distractors.Nodup
        ∧ (distractors.map (fun v => v.french)).Nodup
        ∧ (∀ d ∈ distractors, d ∈ vocabulary ∧ d.id ≠ c.id ∧ d ≠ c)
        ∧ c.french ∉ distractors.map (fun v => v.french) := by
  intro q hq
  unfold mcQuestions at hq
  obtain ⟨p, hp, rfl⟩ := List.mem_map.mp hq
  have hc : p.2 ∈ vocabulary := List.mem_of_mem_take (List.snd_mem_of_mem_enum hp)
  obtain ⟨opts, ds, h1, h2, h3, h4, h5, h6, h7, h8, h9, h10⟩ :=
    mcQuestion_props moduleId vocabulary (shuffleItems p.1) (shuffleOptions p.1)
      hlen hids hfr (hsi p.1) (hso p.1) p.2 hc
  exact ⟨p.2, hc, opts, ds, h2, h1, h3, h4, h5, h6, h7, h8, h9, h10⟩

/-- The first multiple-choice question generated over `pool4` with the
order-keeping shuffles. -/
def mcSampleQuestion : Quiz :=
  { id := none, moduleId := 1, type := "multiple-choice",
    question := "Traduisez: casa", options := some ["voiture", "livre", "eau", "maison"],
    answer := "maison", completed := false }

/-- Witness for C3 at concrete data: on the 4-item sample pool the first
generated question has 4 options containing its correct answer exactly
once. -/
theorem mcQuestions_spec_witness :
    ((mcQuestions 1 pool4 idShuffleItems idShuffleOptions).head?.map
        (fun q => ((q.options.getD []).length, (q.options.getD []).count q.answer)))
      = some (4, 1) := by
  have hmem : mcSampleQuestion ∈ mcQuestions 1 pool4 idShuffleItems idShuffleOptions := by
    decide
  obtain ⟨c, hc, opts, ds, hans, hopts, hperm, hlen4, hcnt, _⟩ :=
    mcQuestions_spec 1 pool4 idShuffleItems idShuffleOptions (by decide) (by decide)
      (by decide) (fun _ l => List.Perm.refl l) (fun _ l => List.Perm.refl l)
      mcSampleQuestion hmem
  have hhead : (mcQuestions 1 pool4 idShuffleItems idShuffleOptions).head?
      = some mcSampleQuestion := by decide
  rw [hhead]
  show some ((mcSampleQuestion.options.getD []).length,
      (mcSampleQuestion.options.getD []).count mcSampleQuestion.answer) = some (4, 1)
  rw [hopts, Option.getD_some, hans, hlen4, hcnt]

/-- Running `mapM` over `Option` succeeds when every element maps to `some`, and
every result element comes from some input element. -/
theorem mapM_option_eq_some {α β : Type} (f : α → Option β) :
    ∀ l : List α, (∀ a ∈ l, (f a).isSome = true) →
      ∃ res, l.mapM f = some res
        ∧ res.length = l.length
        ∧ ∀ b ∈ res, ∃ a ∈ l, f a = some b := by
  intro l
  induction l with
  | nil =>
    intro _
    refine ⟨[], rfl, rfl, by simp⟩
  | cons a t ih =>
    intro h
    obtain ⟨x, hx⟩ := Option.isSome_iff_exists.mp (h a (List.mem_cons_self a t))
    obtain ⟨res, hres, hrlen, hmem⟩ := ih (fun b hb => h b (List.mem_cons_of_mem a hb))
    refine ⟨x :: res, ?_, by simp [hrlen], ?_⟩
    · rw [List.mapM_cons, hx, hres]
      rfl
    · intro b hb
      rcases List.mem_cons.mp hb with rfl | hbt
      · exact ⟨a, List.mem_cons_self a t, hx⟩
      · obtain ⟨a', ha', hfa'⟩ := hmem b hbt
        exact ⟨a', List.mem_cons_of_mem a ha', hfa'⟩

/-- On a 4-item pool every fill-in-blank window index wraps to the start,
so the fill-in-blank step succeeds with 3 questions, all of type
fill-in-blank. -/
theorem fibQuestions_len4 (moduleId : Nat) (vocabulary : List Vocabulary)
    (h : vocabulary.length = 4) :
    ∃ fib, fibQuestions moduleId vocabulary = some fib
      ∧ fib.length = 3
      ∧ ∀ q ∈ fib, q.type = "fill-in-blank" := by
  unfold fibQuestions
  obtain ⟨res, hres, hrlen, hmem⟩ := mapM_option_eq_some
    (fun i => (vocabulary[fibIndex vocabulary.length i]?).map
      (fun item => fibQuestion moduleId item))
    (List.range (min vocabulary.length 3))
    (by
      intro i hi
      rw [h] at hi ⊢
      have hi3 : i < 3 := by simpa using List.mem_range.mp hi
      have hwrap : fibIndex 4 i = i := by
        unfold fibIndex
        rw [if_pos (by omega)]
      show (Option.map (fun item => fibQuestion moduleId item)
        vocabulary[fibIndex 4 i]?).isSome = true
      rw [hwrap, List.getElem?_eq_getElem (by omega)]
      rfl)
  refine ⟨res, hres, ?_, ?_⟩
  · rw [hrlen, List.length_range, h]
    decide
  · intro q hq
    obtain ⟨i, _, hfi⟩ := hmem q hq
    obtain ⟨item, _, rfl⟩ := Option.map_eq_some'.mp hfi
    rfl

/-- On a 4-item pool every audio window index wraps to the start, so the
audio step succeeds with 2 questions, all of type audio. -/
theorem audioQuestions_len4 (moduleId : Nat) (vocabulary : List Vocabulary)
    (h : vocabulary.length = 4) :
    ∃ audio, audioQuestions moduleId vocabulary = some audio
      ∧ audio.length = 2
      ∧ ∀ q ∈ audio, q.type = "audio" := by
  unfold audioQuestions
  obtain ⟨res, hres, hrlen, hmem⟩ := mapM_option_eq_some
    (fun i => (vocabulary[audioIndex vocabulary.length i]?).map
      (fun item => audioQuestion moduleId item))
    (List.range (min vocabulary.length 2))
    (by
      intro i hi
      rw [h] at hi ⊢
      have hi2 : i < 2 := by simpa using List.mem_range.mp hi
      have hwrap : audioIndex 4 i = i := by
        unfold audioIndex
        rw [if_pos (by omega)]
      show (Option.map (fun item => audioQuestion moduleId item)
        vocabulary[audioIndex 4 i]?).isSome = true
      rw [hwrap, List.getElem?_eq_getElem (by omega)]
      rfl)
  refine ⟨res, hres, ?_, ?_⟩
  · rw [hrlen, List.length_range, h]
    decide
  · intro q hq
    obtain ⟨i, _, hfi⟩ := hmem q hq
    obtain ⟨item, _, rfl⟩ := Option.map_eq_some'.mp hfi
    rfl

/-- C9 counterexample: on the 4-item sample pool quiz generation emits 4
multiple-choice questions, not exactly 1 as claimed. -/
theorem generateQuiz_len4_counterexample :
    ((generateQuizForModule 1 pool4 idShuffleItems idShuffleOptions []).2.toOption.map
        (fun qs => (qs.filter (fun q => q.type == "multiple-choice")).length)) = some 4
    ∧ ((generateQuizForModule 1 pool4 idShuffleItems idShuffleOptions []).2.toOption.map
        (fun qs => (qs.filter (fun q => q.type == "multiple-choice")).length)) ≠ some 1 := by
  decide

/-- C9 (amended: 4 multiple-choice questions, not 1, and with the
pool-integrity hypotheses C3's counterexample forces): on a pool of
exactly 4 items with pairwise-distinct ids and pairwise-distinct French
texts, quiz generation succeeds and emits exactly 4 multiple-choice
questions, each of which has 4 options containing its correct answer
exactly once and 3 pairwise-distinct distractors other than the correct
item. -/
theorem generateQuiz_len4_spec (moduleId : Nat) (vocabulary : List Vocabulary)
    (shuffleItems : Nat → List Vocabulary → List Vocabulary)
    (shuffleOptions : Nat → List String → List String)
    (stored : List Quiz)
    (hlen : vocabulary.length = 4)
    (hids : (vocabulary.map (fun v => v.id)).Nodup)
    (hfr : (vocabulary.map (fun v => v.french)).Nodup)
    (hsi : ∀ i l, (shuffleItems i l).Perm l)
    (hso : ∀ i l, (shuffleOptions i l).Perm l) :
    ∃ qs, (generateQuizForModule moduleId vocabulary shuffleItems shuffleOptions stored).2
        = Except.ok qs
      ∧ (qs.filter (fun q => q.type == "multiple-choice")).length = 4
      ∧ ∀ q ∈ qs, q.type = "multiple-choice" →
          ∃ c ∈ vocabulary, ∃ (opts : List String) (distractors : List Vocabulary),
            q.answer = c.french
            ∧ q.options = some opts
            ∧ opts.Perm ((distractors.map (fun v => v.french)) ++ [c.french])
            ∧ opts.length = 4
            ∧ opts.count c.french = 1
            ∧ distractors.length = 3
            ∧ distractors.Nodup
            ∧ (∀ d ∈ distractors, d ∈ vocabulary ∧ d.id ≠ c.id ∧ d ≠ c) := by
  obtain ⟨fib, hfib, hfl, hft⟩ := fibQuestions_len4 moduleId vocabulary hlen
  obtain ⟨audio, haud, hal, hat⟩ := audioQuestions_len4 moduleId vocabulary hlen
  have hmcall : ∀ q ∈ mcQuestions moduleId vocabulary shuffleItems shuffleOptions,
      q.type = "multiple-choice" := by
    intro q hq
    obtain ⟨p, _, rfl⟩ := List.mem_map.mp hq
    rfl
  have hmclen : (mcQuestions moduleId vocabulary shuffleItems shuffleOptions).length = 4 := by
    unfold mcQuestions
    rw [List.length_map, List.enum_length, List.length_take, hlen]
    decide
  refine ⟨mcQuestions moduleId vocabulary shuffleItems shuffleOptions ++ fib ++ audio,
      ?_, ?_, ?_⟩
  · unfold generateQuizForModule
    rw [if_neg (by omega), hfib, haud]
  · rw [List.filter_append, List.filter_append]
    rw [List.filter_eq_self.mpr (fun q hq => by
      rw [hmcall q hq]
      decide)]
    rw [List.filter_eq_nil_iff.mpr (fun q hq => by
      rw [hft q hq]
      decide)]
    rw [List.filter_eq_nil_iff.mpr (fun q hq => by
      rw [hat q hq]
      decide)]
    rw [List.length_append, List.length_append, hmclen]
    rfl
  · intro q hq htype
    have hmc : q ∈ mcQuestions moduleId vocabulary shuffleItems shuffleOptions := by
      rcases List.mem_append.mp hq with h1 | h2
      · rcases List.mem_append.mp h1 with h3 | h4
        · exact h3
        · rw [hft q h4] at htype
          exact absurd htype (by decide)
      · rw [hat q h2] at htype
        exact absurd htype (by decide)
    obtain ⟨p, hp, rfl⟩ := List.mem_map.mp hmc
    have hc : p.2 ∈ vocabulary := List.mem_of_mem_take (List.snd_mem_of_mem_enum hp)
    obtain ⟨opts, ds, h1, h2, h3, h4, h5, h6, h7, _, h9, _⟩ :=
      mcQuestion_props moduleId vocabulary (shuffleItems p.1) (shuffleOptions p.1)
        (by omega) hids hfr (hsi p.1) (hso p.1) p.2 hc
    exact ⟨p.2, hc, opts, ds, h2, h1, h3, h4, h5, h6, h7, h9⟩

/-- Witness for C9 at concrete data: generation over `pool4` succeeds and
its multiple-choice question count is 4. -/
theorem generateQuiz_len4_spec_witness :
    ((generateQuizForModule 1 pool4 idShuffleItems idShuffleOptions []).2.toOption.map
        (fun qs => (qs.filter (fun q => q.type == "multiple-choice")).length))
      = some 4 := by
  obtain ⟨qs, hok, hqlen, _⟩ := generateQuiz_len4_spec 1 pool4 idShuffleItems
    idShuffleOptions [] (by decide) (by decide) (by decide)
    (fun _ l => List.Perm.refl l) (fun _ l => List.Perm.refl l)
  rw [hok]
  show some ((qs.filter (fun q => q.type == "multiple-choice")).length) = some 4
  rw [hqlen]

/-! ### C7 — module completion on quiz completion -/

/-- If the first module matching an id is `m`, the index-based overwrite
of `updateModule` puts the updated `f m` into the resulting list. -/
theorem updateModule_marks (modules : List Module) (id : Nat) (f : Module → Module) :
    ∀ m, modules.find? (fun x => x.id == some id) = some m →
      ∃ i, modules.findIdx? (fun x => x.id == some id) = some i
        ∧ f m ∈ List.modify f i modules := by
  induction modules with
  | nil =>
    intro m hm
    simp [List.find?] at hm
  | cons a t ih =>
    intro m hm
    by_cases ha : (a.id == some id)
    · rw [@List.find?_cons_of_pos _ (fun x => x.id == some id) a t ha] at hm
      injection hm with hm
      subst hm
      refine ⟨0, ?_, ?_⟩
      · rw [List.findIdx?_cons, if_pos ha]
      · rw [show List.modify f 0 (a :: t) = f a :: t from by simp [List.modify]]
        exact List.mem_cons_self _ _
    · rw [@List.find?_cons_of_neg _ (fun x => x.id == some id) a t ha] at hm
      obtain ⟨i, hi, hmem⟩ := ih m hm
      refine ⟨i + 1, ?_, ?_⟩
      · rw [List.findIdx?_cons, if_neg ha, List.findIdx?_succ, hi]
        rfl
      · rw [show List.modify f (i + 1) (a :: t) = a :: List.modify f i t from by
          simp [List.modify]]
        exact List.mem_cons_of_mem a hmem

/-- C7 counterexample: a completed 5-question session with every answer
correct has score-derived percentage 100 ≥ 70, yet quiz completion leaves
the module untouched — the gate compares the raw point score (10 per
correct answer, here 50) against 70, not the percentage. -/
theorem completeQuiz_counterexample :
    sessionPercentage 5 5 = 100
    ∧ 70 ≤ sessionPercentage 5 5
    ∧ completeQuiz [sampleModule] 1 (sessionScore 5) = [sampleModule]
    ∧ sampleModule.completed = false
    ∧ sampleModule.progress = 0 := by
  decide

/-- C7 (amended: the completion gate is the raw session score, 10 points
per correct answer, reaching 70 — i.e. at least 7 correct answers — not
the score-derived percentage): when the raw score is below 70, or the
module id is not found, quiz completion leaves every module untouched;
when the raw score is at least 70 and the module exists, the first module
with that id is marked `completed = true`, `progress = 100` in the
resulting list.  The raw-score gate coincides with the 70% gate only for
sessions of 9 or 10 questions. -/
theorem completeQuiz_spec (modules : List Module) (moduleId : Nat) (score : Nat) :
    (score < 70 → completeQuiz modules moduleId score = modules)
    ∧ (modules.find? (fun m => m.id == some moduleId) = none →
        completeQuiz modules moduleId score = modules)
    ∧ (∀ m, 70 ≤ score → modules.find? (fun m => m.id == some moduleId) = some m →
        { m with completed := true, progress := 100 } ∈ completeQuiz modules moduleId score)
    ∧ (∀ c, 70 ≤ sessionScore c ↔ 7 ≤ c) := by
  refine ⟨?_, ?_, ?_, ?_⟩
  · intro h
    unfold completeQuiz
    rw [if_neg (fun hc => absurd hc.2 (by omega))]
  · intro h
    unfold completeQuiz
    rw [if_neg (fun hc => by
      have h1 := hc.1
      rw [h] at h1
      simp at h1)]
  · intro m hs hm
    unfold completeQuiz
    rw [if_pos ⟨by rw [hm]; rfl, hs⟩]
    unfold updateModule
    obtain ⟨i, hi, hmem⟩ := updateModule_marks modules moduleId
      (fun m => { m with completed := true, progress := 100 }) m hm
    rw [hi]
    exact hmem
  · intro c
    unfold sessionScore
    omega

/-- Witness for C7 at concrete data: a raw score of 70 (7 correct
answers) marks the sample module completed with progress 100. -/
theorem completeQuiz_spec_witness :
    { sampleModule with completed := true, progress := 100 }
        ∈ completeQuiz [sampleModule] 1 (sessionScore 7) := by
  have h := completeQuiz_spec [sampleModule] 1 (sessionScore 7)
  exact h.2.2.1 sampleModule (by decide) (by decide)

end Portugais
